import Mathlib

/-!
Verification of the NextFitAI backend core (submission, processing and
retrieval handlers plus the result formatter) against its specification.

The Python sources are shallowly embedded: pure helpers become Lean
functions over `List Char` / `String`, the three lambda handlers become
functions from an explicit environment (the outcomes of the external
calls they make) to a response paired with the ordered list of side
effects they attempted.  Python `datetime.now()` is modelled as an
explicit `now : String` parameter; Python `set` iteration order is
modelled as first-occurrence order of the underlying list (Python leaves
it unspecified; no claim below depends on a particular order).
-/

/-! ## Basic string helpers mirroring the Python primitives -/

/-- The characters matched by Python `\s` (ASCII range), also the ones
stripped by `str.strip()` for the texts involved here. -/
def isPySpace (c : Char) : Bool :=
  c == ' ' || c == '\t' || c == '\n' || c == '\r' || c == '\x0b' || c == '\x0c'

/-- Lowercasing a character, as Python `str.lower` does on ASCII text. -/
def lowerChar (c : Char) : Char := c.toLower

/-- Lowercasing a whole character list (`str.lower`). -/
def toLowerL (l : List Char) : List Char := l.map lowerChar

/-- `startsWithL l p` holds when `p` is an initial segment of `l`. -/
def startsWithL : List Char → List Char → Bool
  | _, [] => true
  | [], _ :: _ => false
  | c :: cs, p :: ps => c == p && startsWithL cs ps

/-- Substring test, Python `needle in hay`. -/
def containsSub (hay needle : List Char) : Bool :=
  match hay with
  | [] => needle.isEmpty
  | _ :: t => startsWithL hay needle || containsSub t needle

/-- Python `str.strip()`: drop leading and trailing whitespace. -/
def stripWsL (l : List Char) : List Char :=
  ((l.dropWhile isPySpace).reverse.dropWhile isPySpace).reverse

/-- A double or single quote character, the argument of the second
`.strip('"\x27')` call in the source. -/
def isQuoteC (c : Char) : Bool := c == '"' || c.toNat == 39

/-- Python `str.strip('"\x27')`: drop leading and trailing quote characters. -/
def stripQuotesL (l : List Char) : List Char :=
  ((l.dropWhile isQuoteC).reverse.dropWhile isQuoteC).reverse

/-- Python `str.split(',')` — splits at every comma, keeping empty pieces. -/
def splitCommaAux (l : List Char) (acc : List Char) : List (List Char) :=
  match l with
  | [] => [acc.reverse]
  | c :: cs => if c == ',' then acc.reverse :: splitCommaAux cs [] else splitCommaAux cs (c :: acc)

/-- Python `str.split(',')` on a character list. -/
def splitCommaL (l : List Char) : List (List Char) := splitCommaAux l []

/-- Helper for `pyWords`: accumulate the current word while scanning. -/
def pyWordsAux (l : List Char) (acc : List Char) : List (List Char) :=
  match l with
  | [] => if acc.isEmpty then [] else [acc.reverse]
  | c :: cs =>
    if isPySpace c then
      if acc.isEmpty then pyWordsAux cs [] else acc.reverse :: pyWordsAux cs []
    else pyWordsAux cs (c :: acc)

/-- Python `s.lower().split()`: whitespace-separated words of the lowercased
text, empty pieces discarded. -/
def pyWords (s : String) : List String :=
  (pyWordsAux (toLowerL s.data) []).map (fun w => String.mk w)

/-- Deduplication keeping first occurrences, the model of Python
`list(set(xs))` (whose order Python leaves unspecified). -/
def dedupAux {α : Type} [BEq α] (seen : List α) : List α → List α
  | [] => []
  | x :: xs => if seen.contains x then dedupAux seen xs else x :: dedupAux (x :: seen) xs

/-- `dedupL xs` keeps the first occurrence of every element of `xs`. -/
def dedupL {α : Type} [BEq α] (xs : List α) : List α := dedupAux [] xs

/-- Python `', '.join`. -/
def joinCommaSpace : List String → String
  | [] => ""
  | [x] => x
  | x :: y :: xs => x ++ ", " ++ joinCommaSpace (y :: xs)

/-! ## The stored analysis result and the formatted result -/

/-- The `analysis_result` dictionary stored on a tracking record.  Every
field is optional because the formatter reads each one with a default. -/
structure AnalysisResultRec where
  match_score : Option Int
  analysis : Option String
  timestamp : Option String
  is_mock : Option Bool
deriving DecidableEq

/-- The structured result returned for a COMPLETED record
(`format_analysis_results` in `get_analysis/lambda_function.py`). -/
structure FormattedResult where
  match_score : Int
  missing_skills : List String
  recommendations : List String
  confidence_score : Int
  analysis_timestamp : String
deriving DecidableEq

/-! ## calculate_confidence_score (get_analysis/lambda_function.py 294-324) -/

/-- `calculate_confidence_score(analysis_result, match_score, is_mock)`:
start at 70, adjust for the match score, the mock flag and the length of
the analysis text, then clamp to [10, 95]. -/
def calculate_confidence_score (analysis_result : AnalysisResultRec)
    (match_score : Int) (is_mock : Bool) : Int :=
  let base1 : Int := 70
  let base2 : Int :=
    if match_score ≥ 80 then base1 + 20
    else if match_score ≥ 60 then base1 + 10
    else if match_score ≥ 40 then base1 + 5
    else base1 - 10
  let base3 : Int := if is_mock then base2 - 30 else base2
  let analysis_text := analysis_result.analysis.getD ""
  let base4 : Int :=
    if analysis_text.length > 500 then base3 + 10
    else if analysis_text.length < 100 then base3 - 15
    else base3
  max 10 (min 95 base4)

/-- The confidence computation as the specification words it (§4.4): start
at 70; add 20/10/5 for score thresholds 80/60/40, else subtract 10;
subtract 30 if mock; add 10 for text longer than 500 characters, subtract
15 for text shorter than 100; clamp to [10, 95]. -/
def confidenceSpec (match_score : Int) (is_mock : Bool) (text_len : Nat) : Int :=
  let afterScore : Int :=
    if match_score ≥ 80 then 70 + 20
    else if match_score ≥ 60 then 70 + 10
    else if match_score ≥ 40 then 70 + 5
    else 70 - 10
  let afterMock : Int := afterScore - (if is_mock then 30 else 0)
  let afterLen : Int :=
    if text_len > 500 then afterMock + 10
    else if text_len < 100 then afterMock - 15
    else afterMock
  max 10 (min 95 afterLen)

/-- Claim C1: for every input, the confidence score equals the spec formula
(start at 70; +20/+10/+5 for match score at least 80/60/40, else -10;
-30 when mock; +10 when the analysis text exceeds 500 characters, -15 when
shorter than 100; clamped to [10, 95]), and in particular the result
always lies in the interval [10, 95]. -/
theorem c1_confidence_matches_spec_and_bounded
    (analysis_result : AnalysisResultRec) (match_score : Int) (is_mock : Bool) :
    calculate_confidence_score analysis_result match_score is_mock
      = confidenceSpec match_score is_mock (analysis_result.analysis.getD "").length
    ∧ 10 ≤ calculate_confidence_score analysis_result match_score is_mock
    ∧ calculate_confidence_score analysis_result match_score is_mock ≤ 95 := by
  refine ⟨?_, ?_, ?_⟩
  · unfold calculate_confidence_score confidenceSpec
    dsimp only
    split_ifs <;> norm_num
  · unfold calculate_confidence_score
    exact le_max_left _ _
  · unfold calculate_confidence_score
    exact max_le (by norm_num) (min_le_left _ _)

/-! ## The pattern scans of the result formatter

The extraction helpers use `re.findall` with patterns of the uniform
shape `LITERAL [a-z]* [:\s]+ ([^.]+)` (the middle `[a-z]*` only for the
starred recommendation triggers, and an optional trailing `s` for
`lacks?` / `needs?`), under `re.IGNORECASE`.  For these patterns the
backtracking behaviour is fully determined: the separator run is maximal
unless the following `[^.]+` capture would be empty, in which case the
greedy engine gives the last separator character back to the capture
(possible only when the run has at least two characters, since the
separator still needs one). -/

/-- One trigger pattern: a literal (matched case-insensitively), an
optional trailing `s` (for `lacks?`, `needs?`) and an optional greedy
`[a-z]*` between literal and separator (for `recommend[a-z]*` etc.). -/
structure Pat where
  lit : List Char
  optS : Bool
  letterStar : Bool

/-- A separator character of the `[:\s]+` class. -/
def isSepC (c : Char) : Bool := c == ':' || isPySpace c

/-- A character of the `[^.]+` capture class. -/
def notDot (c : Char) : Bool := c != '.'

/-- Case-insensitive literal match; returns the rest of the input on
success. -/
def litMatch : List Char → List Char → Option (List Char)
  | [], cs => some cs
  | _ :: _, [] => none
  | p :: ps, c :: cs => if p.toLower == c.toLower then litMatch ps cs else none

/-- Match `[:\s]+([^.]+)` at the head of `cs`, with the backtracking
described above; returns the capture and the input remaining after the
whole match. -/
def afterLit (cs : List Char) : Option (List Char × List Char) :=
  let seps := cs.takeWhile isSepC
  let rest := cs.dropWhile isSepC
  if seps.isEmpty then none
  else
    let cap := rest.takeWhile notDot
    if cap.isEmpty then
      if seps.length ≥ 2 then
        match seps.getLast? with
        | some c => some ([c], rest)
        | none => none
      else none
    else some (cap, rest.dropWhile notDot)

/-- Attempt a full pattern match at the current position. -/
def patAt (p : Pat) (cs : List Char) : Option (List Char × List Char) :=
  let go : List Char → Option (List Char × List Char) := fun litv =>
    match litMatch litv cs with
    | none => none
    | some rest1 =>
      let rest2 := if p.letterStar then rest1.dropWhile Char.isAlpha else rest1
      afterLit rest2
  if p.optS then
    match go (p.lit ++ ['s']) with
    | some r => some r
    | none => go p.lit
  else go p.lit

/-- `re.findall`: scan left to right, emit the capture of each
non-overlapping match and resume after it.  The fuel argument bounds the
scan length; `findAll` supplies the input length, which suffices because
every step consumes at least one character. -/
def findAllF (p : Pat) : Nat → List Char → List (List Char)
  | 0, _ => []
  | _, [] => []
  | fuel + 1, c :: cs =>
    match patAt p (c :: cs) with
    | some (cap, rest) => cap :: findAllF p fuel rest
    | none => findAllF p fuel cs

/-- All captures of pattern `p` in `cs`, leftmost first, non-overlapping. -/
def findAll (p : Pat) (cs : List Char) : List (List Char) := findAllF p cs.length cs

/-! ## extract_missing_skills (get_analysis/lambda_function.py 224-257) -/

/-- The five missing-skill trigger patterns, in source order. -/
def skillPats : List Pat :=
  [⟨"missing".data, false, false⟩,
   ⟨"lack".data, true, false⟩,
   ⟨"should add".data, false, false⟩,
   ⟨"need".data, true, false⟩,
   ⟨"consider adding".data, false, false⟩]

/-- The fixed skill list substituted for a mock analysis with no hits. -/
def mockSkills : List String := ["Python", "AWS", "Docker"]

/-- The missing-skills list accumulated by lines 228-252, before the
final `list(set(missing_skills))[:5]`: every trigger capture split on
commas, each piece stripped of whitespace then quotes, with the fixed
skill list substituted when the scan found nothing and the text mentions
`mock`. -/
def rawMissingSkills (analysis_text : String) : List String :=
  let cs := analysis_text.data
  let raw : List String :=
    (skillPats.map (fun p =>
      ((findAll p cs).map (fun cap =>
        (splitCommaL cap).map (fun s => String.mk (stripQuotesL (stripWsL s))))).flatten)).flatten
  if raw.isEmpty && containsSub (toLowerL cs) "mock".data then mockSkills else raw

/-- `extract_missing_skills(analysis_text)`: the raw skill list above
followed by `list(set(missing_skills))[:5]`.  CPython enumerates the set
in a per-process, hash-seed-dependent order; this executable model fixes
one enumeration (first occurrence).  Properties that depend on the
enumeration order must instead use the relational model
`FormatRunWithSetOrder` below, which quantifies over all enumerations. -/
def extract_missing_skills (analysis_text : String) : List String :=
  (dedupL (rawMissingSkills analysis_text)).take 5

/-! ## extract_recommendations (get_analysis/lambda_function.py 259-292) -/

/-- The five recommendation trigger patterns, in source order. -/
def recPats : List Pat :=
  [⟨"recommend".data, false, true⟩,
   ⟨"suggest".data, false, true⟩,
   ⟨"should".data, false, false⟩,
   ⟨"consider".data, false, false⟩,
   ⟨"improve".data, false, true⟩]

/-- The fixed list of 5 generic recommendations substituted when the scan
finds nothing. -/
def defaultRecommendations : List String :=
  ["Add quantified achievements (e.g., \x27Increased efficiency by 25%\x27)",
   "Include relevant keywords from the job description",
   "Highlight specific technical skills and experience",
   "Use action verbs to describe accomplishments",
   "Tailor resume content to match job requirements"]

/-- `extract_recommendations(analysis_text)`: run every trigger pattern,
strip whitespace then quotes from each capture, keep only captures longer
than 10 characters; substitute the generic list if nothing survives; keep
at most 5 entries. -/
def extract_recommendations (analysis_text : String) : List String :=
  let cs := analysis_text.data
  let raw : List String :=
    (recPats.map (fun p =>
      ((findAll p cs).map (fun cap => String.mk (stripQuotesL (stripWsL cap)))).filter
        (fun r => r.length > 10))).flatten
  let recommendations := if raw.isEmpty then defaultRecommendations else raw
  recommendations.take 5

/-! ## format_analysis_results (get_analysis/lambda_function.py 198-222) -/

/-- `format_analysis_results(analysis_result)`: read each stored field
with its default (`now` stands for the `datetime.now().isoformat()` used
when the stored timestamp is absent), extract skills and recommendations
from the analysis text, and compute the confidence score. -/
def format_analysis_results (analysis_result : AnalysisResultRec) (now : String) :
    FormattedResult :=
  let match_score := analysis_result.match_score.getD 0
  let analysis_text := analysis_result.analysis.getD ""
  let timestamp := analysis_result.timestamp.getD now
  let is_mock := analysis_result.is_mock.getD false
  { match_score := match_score
    missing_skills := extract_missing_skills analysis_text
    recommendations := extract_recommendations analysis_text
    confidence_score := calculate_confidence_score analysis_result match_score is_mock
    analysis_timestamp := timestamp }

/-! ## extract_match_score (process_analysis/lambda_function.py 215-234)

The four score patterns are `match score[:\s]+(\d+)`, `score[:\s]+(\d+)`,
`(\d+)/100` and `(\d+)%`, searched in that order over the lowercased
text with `re.search` (leftmost match).  For `LIT[:\s]+(\d+)` the digits
must directly follow a non-empty separator run (separator characters are
not digits, so no backtracking helps); for `(\d+)SUFFIX` the maximal
digit run at a position must be directly followed by the suffix. -/

/-- Numeric value of a digit run, Python `int(...)`. -/
def digitsVal (l : List Char) : Nat := l.foldl (fun acc c => acc * 10 + (c.toNat - 48)) 0

/-- Try `LIT[:\s]+(\d+)` at the current position. -/
def scoreLitAt (lit : List Char) (cs : List Char) : Option Nat :=
  match litMatch lit cs with
  | none => none
  | some rest =>
    let seps := rest.takeWhile isSepC
    let rest2 := rest.dropWhile isSepC
    if seps.isEmpty then none
    else
      let ds := rest2.takeWhile Char.isDigit
      if ds.isEmpty then none else some (digitsVal ds)

/-- `re.search` for `LIT[:\s]+(\d+)`: leftmost matching position. -/
def searchLitScore (lit : List Char) : List Char → Option Nat
  | [] => none
  | c :: cs =>
    match scoreLitAt lit (c :: cs) with
    | some v => some v
    | none => searchLitScore lit cs

/-- Try `(\d+)SUFFIX` at the current position. -/
def scoreBeforeAt (sfx : List Char) (cs : List Char) : Option Nat :=
  let ds := cs.takeWhile Char.isDigit
  if ds.isEmpty then none
  else if startsWithL (cs.drop ds.length) sfx then some (digitsVal ds) else none

/-- `re.search` for `(\d+)SUFFIX`: leftmost matching position. -/
def searchScoreBefore (sfx : List Char) : List Char → Option Nat
  | [] => none
  | c :: cs =>
    match scoreBeforeAt sfx (c :: cs) with
    | some v => some v
    | none => searchScoreBefore sfx cs

/-- `extract_match_score(analysis_text)`: first hit of the four patterns
on the lowercased text, defaulting to 75. -/
def extract_match_score (analysis_text : String) : Int :=
  let t := toLowerL analysis_text.data
  match searchLitScore "match score".data t with
  | some v => (v : Int)
  | none =>
    match searchLitScore "score".data t with
    | some v => (v : Int)
    | none =>
      match searchScoreBefore "/100".data t with
      | some v => (v : Int)
      | none =>
        match searchScoreBefore "%".data t with
        | some v => (v : Int)
        | none => 75

/-! ## generate_mock_analysis (process_analysis/lambda_function.py 182-213) -/

/-- The lowercase word set overlap used by the fallback: the distinct
lowercased words of the resume that also occur among the lowercased words
of the job description (the model of `set(...) & set(...)`, enumerated in
first-occurrence order). -/
def commonWords (resume_text job_description : String) : List String :=
  (dedupL (pyWords resume_text)).filter (fun w => (pyWords job_description).contains w)

/-- Intersection size of the two lowercase word sets, as the spec words it
(lowercase tokenization, word sets, intersection size). -/
def specInterSize (resume_text job_description : String) : Nat :=
  (commonWords resume_text job_description).length

/-- The fixed analysis template of the fallback, embedding the score, the
overlap count and up to 10 sample overlapping words. -/
def mockAnalysisText (mock_score : Int) (common_words : List String) : String :=
  "\n        MOCK ANALYSIS (Bedrock Agent not configured):\n        \n        Match Score: "
    ++ toString mock_score
    ++ "/100\n        \n        Key Strengths:\n        - Found "
    ++ toString common_words.length
    ++ " matching keywords between resume and job description\n        - Resume demonstrates relevant experience\n        \n        Areas for Improvement:\n        - Configure Bedrock Agent for detailed AI-powered analysis\n        - Update BedrockAgentId and BedrockAgentAliasId parameters\n        \n        Recommendations:\n        - This is a mock analysis. Configure AWS Bedrock Agent for real AI-powered resume coaching.\n        - Common keywords found: "
    ++ joinCommaSpace (common_words.take 10)
    ++ "\n        "

/-- `generate_mock_analysis(resume_text, job_description)`: keyword
overlap score `min(100, 5 * |overlap|)`, templated analysis text,
timestamp `now`, flagged `is_mock = true`. -/
def generate_mock_analysis (resume_text job_description now : String) : AnalysisResultRec :=
  let common_words := commonWords resume_text job_description
  let mock_score : Int := min 100 (5 * (common_words.length : Int))
  { match_score := some mock_score
    analysis := some (mockAnalysisText mock_score common_words)
    timestamp := some now
    is_mock := some true }

/-- `invoke_bedrock_agent`, after the streaming response has been
concatenated into `result`: the stored record extracts the score from the
text and carries no `is_mock` key. -/
def invoke_bedrock_agent_result (result : String) (now : String) : AnalysisResultRec :=
  { match_score := some (extract_match_score result)
    analysis := some result
    timestamp := some now
    is_mock := none }

/-! ## The processing handler (process_analysis/lambda_function.py 6-136)

External calls are modelled by an environment giving each call's outcome;
the handler returns its HTTP-style response together with the ordered
list of external operations it attempted. -/

namespace ProcessAnalysis

/-- One attempted external operation of the processing handler. -/
inductive PEffect where
  | updProcessing
  | readResume
  | readJD
  | invokeAgent
  | updCompleted (result : AnalysisResultRec)
  | updFailed (msg : String)
deriving DecidableEq

/-- Response body of the processing handler. -/
inductive ProcBody where
  | completed (analysis_id : String) (result : AnalysisResultRec)
  | err (msg : String)
deriving DecidableEq

/-- HTTP-style response of the processing handler. -/
structure ProcResponse where
  statusCode : Nat
  body : ProcBody
deriving DecidableEq

/-- Outcomes of the external calls the processing handler can make, plus
its input and the ambient clock.  `agentId` / `aliasId` are the resolved
environment variables (defaulting to the placeholder values when unset). -/
structure ProcEnv where
  analysis_id : String
  updProcessingRes : Except String Unit
  readResumeRes : Except String String
  readJDRes : Except String String
  agentId : String
  aliasId : String
  agentRes : Except String String
  updCompletedRes : Except String Unit
  updFailedRes : Except String Unit
  now : String

/-- The outer `except` block: best-effort FAILED update (its own failure
is swallowed by `pass`), then a 500 response carrying the error. -/
def outerExcept (msg : String) (tr : List PEffect) : ProcResponse × List PEffect :=
  (⟨500, .err msg⟩, tr ++ [.updFailed msg])

/-- A FAILED update inside the main `try` (the read-failure and
agent-failure paths): if the update itself raises, control reaches the
outer `except`, which tries one more FAILED update and returns the new
error. -/
def failUpdateThenReturn (env : ProcEnv) (msg : String) (tr : List PEffect) :
    ProcResponse × List PEffect :=
  match env.updFailedRes with
  | .ok _ => (⟨500, .err msg⟩, tr ++ [.updFailed msg])
  | .error e2 => outerExcept e2 (tr ++ [.updFailed msg])

/-- The COMPLETED update and 200 response shared by both analysis paths. -/
def completeFlow (env : ProcEnv) (result : AnalysisResultRec) (tr : List PEffect) :
    ProcResponse × List PEffect :=
  let tr4 := tr ++ [PEffect.updCompleted result]
  match env.updCompletedRes with
  | .ok _ => (⟨200, .completed env.analysis_id result⟩, tr4)
  | .error e => outerExcept e tr4

/-- `lambda_handler(event, context)` of the processing handler: mark the
record PROCESSING, read the two documents, analyse them with the agent
when it is configured (otherwise the local fallback), store the result as
COMPLETED; every failure marks the record FAILED and returns 500. -/
def lambda_handler (env : ProcEnv) : ProcResponse × List PEffect :=
  let tr0 := [PEffect.updProcessing]
  match env.updProcessingRes with
  | .error e => outerExcept e tr0
  | .ok _ =>
    let tr1 := tr0 ++ [PEffect.readResume]
    match env.readResumeRes with
    | .error e => failUpdateThenReturn env ("Failed to retrieve input files: " ++ e) tr1
    | .ok resume_text =>
      let tr2 := tr1 ++ [PEffect.readJD]
      match env.readJDRes with
      | .error e => failUpdateThenReturn env ("Failed to retrieve input files: " ++ e) tr2
      | .ok job_description =>
        if env.agentId ≠ "PLACEHOLDER_AGENT_ID" ∧ env.aliasId ≠ "TSTALIASID" then
          let tr3 := tr2 ++ [PEffect.invokeAgent]
          match env.agentRes with
          | .error e => failUpdateThenReturn env ("Bedrock Agent error: " ++ e) tr3
          | .ok result =>
            completeFlow env (invoke_bedrock_agent_result result env.now) tr3
        else
          completeFlow env (generate_mock_analysis resume_text job_description env.now) tr2

end ProcessAnalysis

/-! ## The submission handler (submit_analysis/lambda_function.py 7-90) -/

namespace SubmitAnalysis

/-- The parsed JSON request body; a `none` field models a missing key
(whose access raises `KeyError`, caught by the blanket `except`). -/
structure SubmitBody where
  analysis_id : Option String
  resume_text : Option String
  job_description : Option String
deriving DecidableEq

/-- Outcomes of the external calls of the submission handler, plus the
ambient clock and the serialized estimated-completion time
(`datetime.now() + 30s`). -/
structure SubmitEnv where
  putResumeRes : Except String Unit
  putJDRes : Except String Unit
  putItemRes : Except String Unit
  invokeRes : Except String Unit
  now : String
  estimated : String

/-- One attempted external operation of the submission handler. -/
inductive SEffect where
  | putResume (key : String) (content : String)
  | putJD (key : String) (content : String)
  | putItem (analysis_id : String) (status : String) (timestamp : String)
  | invokeProcess (analysis_id : String)
deriving DecidableEq

/-- Response body of the submission handler. -/
inductive SubmitBodyOut where
  | submitted (analysis_id : String) (estimated_completion : String)
  | err (msg : String)
deriving DecidableEq

/-- HTTP-style response of the submission handler. -/
structure SubmitResponse where
  statusCode : Nat
  body : SubmitBodyOut
deriving DecidableEq

/-- `lambda_handler(event, context)` of the submission handler: read the
three required fields (a missing key raises and lands in the blanket
`except`, a 500), reject empty texts with a 400, then store both blobs,
create the SUBMITTED tracking record and fire the processing trigger;
any external failure surfaces as a 500 with the steps so far attempted. -/
def lambda_handler (body : SubmitBody) (env : SubmitEnv) :
    SubmitResponse × List SEffect :=
  match body.analysis_id with
  | none => (⟨500, .err "KeyError: analysis_id"⟩, [])
  | some analysis_id =>
    match body.resume_text with
    | none => (⟨500, .err "KeyError: resume_text"⟩, [])
    | some resume_text =>
      match body.job_description with
      | none => (⟨500, .err "KeyError: job_description"⟩, [])
      | some job_description =>
        if resume_text = "" ∨ job_description = "" then
          (⟨400, .err "Resume and job description are required"⟩, [])
        else
          let t1 := [SEffect.putResume ("raw-inputs/" ++ analysis_id ++ "/resume.txt") resume_text]
          match env.putResumeRes with
          | .error e => (⟨500, .err e⟩, t1)
          | .ok _ =>
            let t2 := t1 ++ [SEffect.putJD ("raw-inputs/" ++ analysis_id ++ "/job_description.txt") job_description]
            match env.putJDRes with
            | .error e => (⟨500, .err e⟩, t2)
            | .ok _ =>
              let t3 := t2 ++ [SEffect.putItem analysis_id "SUBMITTED" env.now]
              match env.putItemRes with
              | .error e => (⟨500, .err e⟩, t3)
              | .ok _ =>
                let t4 := t3 ++ [SEffect.invokeProcess analysis_id]
                match env.invokeRes with
                | .error e => (⟨500, .err e⟩, t4)
                | .ok _ => (⟨202, .submitted analysis_id env.estimated⟩, t4)

end SubmitAnalysis

/-! ## The retrieval handler (get_analysis/lambda_function.py 57-155) -/

namespace GetAnalysis

/-- A tracking record as read from the store; optional fields model keys
that may be absent from the item. -/
structure ItemRec where
  status : Option String
  error_message : Option String
  completion_timestamp : Option String
  timestamp : Option String
  analysis_result : Option AnalysisResultRec
deriving DecidableEq

/-- Response body of the retrieval handler. -/
inductive GetBodyOut where
  | err (msg : String)
  | processing (message : String)
  | failed (error : String) (timestamp : Option String)
  | completed (results : FormattedResult)
  | unknownStatus (message : String)
deriving DecidableEq

/-- HTTP-style response of the retrieval handler. -/
structure GetResponse where
  statusCode : Nat
  body : GetBodyOut
deriving DecidableEq

/-- The `{}` default used for `item.get('analysis_result', {})`. -/
def emptyResult : AnalysisResultRec := ⟨none, none, none, none⟩

/-- `handle_get_results`: reject a missing or empty (falsy) id with 400,
a missing record with 404, then dispatch on the record status: SUBMITTED
and PROCESSING report processing, FAILED reports the stored error and
completion (or creation) timestamp, COMPLETED formats the stored result
fresh, anything else reports unknown. -/
def handle_get_results (analysis_id : Option String) (item : Option ItemRec)
    (now : String) : GetResponse :=
  match analysis_id with
  | none => ⟨400, .err "analysis_id is required"⟩
  | some aid =>
    if aid = "" then ⟨400, .err "analysis_id is required"⟩
    else
      match item with
      | none => ⟨404, .err "Analysis not found"⟩
      | some it =>
        let status := it.status.getD "unknown"
        if status = "SUBMITTED" then ⟨200, .processing "Analysis is queued for processing"⟩
        else if status = "PROCESSING" then ⟨200, .processing "Analysis is currently being processed"⟩
        else if status = "FAILED" then
          ⟨200, .failed (it.error_message.getD "Analysis failed")
            (match it.completion_timestamp with
             | some t => some t
             | none => it.timestamp)⟩
        else if status = "COMPLETED" then
          ⟨200, .completed (format_analysis_results (it.analysis_result.getD emptyResult) now)⟩
        else ⟨200, .unknownStatus ("Unknown status: " ++ status)⟩

end GetAnalysis

/-! ## Theorems for the claims -/

/-- A submission environment in which every external call succeeds. -/
def okSubmitEnv : SubmitAnalysis.SubmitEnv :=
  ⟨Except.ok (), Except.ok (), Except.ok (), Except.ok (), "T0", "T30"⟩

/-- Claim C2: the local fallback sets `match_score = min(100, 5 * n)` with
`n` the size of the intersection of the lowercase word sets, marks the
result mock, is deterministic in the input pair (the clock only affects
the timestamp), and on the concrete pair resume = Python AWS
microservices experience, job = Python AWS microservices required the
intersection has size 3 and the score is 15. -/
theorem c2_mock_score_spec_deterministic (resume_text job_description now1 now2 : String) :
    (generate_mock_analysis resume_text job_description now1).match_score
      = some (min 100 (5 * (specInterSize resume_text job_description : Int)))
    ∧ (generate_mock_analysis resume_text job_description now1).is_mock = some true
    ∧ (generate_mock_analysis resume_text job_description now1).match_score
      = (generate_mock_analysis resume_text job_description now2).match_score
    ∧ specInterSize "Python AWS microservices experience"
        "Python AWS microservices required" = 3
    ∧ (generate_mock_analysis "Python AWS microservices experience"
        "Python AWS microservices required" now1).match_score = some 15 :=
  ⟨rfl, rfl, rfl, by decide, rfl⟩

/-- One run of `format_analysis_results` with the process's actual set
enumeration made explicit: CPython's `list(set(missing_skills))` in line
255 enumerates the distinct skills in a per-process, hash-seed-dependent
order, so a run's `missing_skills` is the 5-cap of an arbitrary
permutation of the deduplicated raw skill list; every other field is
computed exactly as `format_analysis_results` computes it.  The
executable `format_analysis_results` is the particular run whose
enumeration is first-occurrence order. -/
def FormatRunWithSetOrder (analysis_result : AnalysisResultRec) (now : String)
    (out : FormattedResult) : Prop :=
  ∃ enum : List String,
    enum.Perm (dedupL (rawMissingSkills (analysis_result.analysis.getD ""))) ∧
    out = { format_analysis_results analysis_result now with
              missing_skills := enum.take 5 }

/-- Amended claim C5: for every stored `analysis_result` that carries a
timestamp, any two formatter runs — each with its own clock and its own
process set-enumeration order — agree on `match_score`,
`recommendations`, `confidence_score` and `analysis_timestamp`, and
their `missing_skills` lists have equal length and are permutations of
each other whenever at most 5 distinct skills were extracted.  The
ordering of `missing_skills` (and, beyond 5 distinct skills, the
selection) is not deterministic across processes. -/
theorem c5_amended_order_insensitive_determinism
    (r : AnalysisResultRec) (t now1 now2 : String) (out1 out2 : FormattedResult)
    (h : r.timestamp = some t)
    (h1 : FormatRunWithSetOrder r now1 out1)
    (h2 : FormatRunWithSetOrder r now2 out2) :
    out1.match_score = out2.match_score
    ∧ out1.recommendations = out2.recommendations
    ∧ out1.confidence_score = out2.confidence_score
    ∧ out1.analysis_timestamp = out2.analysis_timestamp
    ∧ out1.missing_skills.length = out2.missing_skills.length
    ∧ ((dedupL (rawMissingSkills (r.analysis.getD ""))).length ≤ 5 →
        out1.missing_skills.Perm out2.missing_skills) := by
  obtain ⟨e1, hp1, rfl⟩ := h1
  obtain ⟨e2, hp2, rfl⟩ := h2
  refine ⟨rfl, rfl, rfl, ?_, ?_, ?_⟩
  · simp [format_analysis_results, h]
  · simp only [List.length_take, hp1.length_eq, hp2.length_eq]
  · intro hle
    have l1 : e1.length ≤ 5 := by rw [hp1.length_eq]; exact hle
    have l2 : e2.length ≤ 5 := by rw [hp2.length_eq]; exact hle
    simp only [List.take_of_length_le l1, List.take_of_length_le l2]
    exact hp1.trans hp2.symm

/-- A stored record with a timestamp whose analysis text yields the two
distinct skills Docker and Kubernetes. -/
def c5RunRecord : AnalysisResultRec :=
  ⟨some 50, some "The resume is missing: Docker, Kubernetes. More text.", some "T1", some false⟩

/-- A formatter run on `c5RunRecord` enumerating the skill set as
Docker, Kubernetes. -/
def c5RunOut1 : FormattedResult :=
  { format_analysis_results c5RunRecord "a" with
      missing_skills := ["Docker", "Kubernetes"] }

/-- A formatter run on `c5RunRecord` enumerating the skill set in the
opposite order, Kubernetes, Docker. -/
def c5RunOut2 : FormattedResult :=
  { format_analysis_results c5RunRecord "b" with
      missing_skills := ["Kubernetes", "Docker"] }

/-- Witness for the amended claim C5: two concrete runs with different
clocks and opposite set-enumeration orders. -/
theorem c5_amended_order_witness :
    c5RunOut1.match_score = c5RunOut2.match_score
    ∧ c5RunOut1.recommendations = c5RunOut2.recommendations
    ∧ c5RunOut1.confidence_score = c5RunOut2.confidence_score
    ∧ c5RunOut1.analysis_timestamp = c5RunOut2.analysis_timestamp
    ∧ c5RunOut1.missing_skills.length = c5RunOut2.missing_skills.length
    ∧ ((dedupL (rawMissingSkills (c5RunRecord.analysis.getD ""))).length ≤ 5 →
        c5RunOut1.missing_skills.Perm c5RunOut2.missing_skills) :=
  c5_amended_order_insensitive_determinism c5RunRecord "T1" "a" "b" c5RunOut1 c5RunOut2 rfl
    ⟨["Docker", "Kubernetes"], by decide, by decide⟩
    ⟨["Kubernetes", "Docker"], by decide, by decide⟩

/-- Counterexample to claim C5 as stated: on a stored record with no
timestamp field the formatter inserts the current time, so two runs at
different times produce different `analysis_timestamp` values. -/
theorem c5_counterexample_fresh_timestamp :
    format_analysis_results ⟨none, none, none, none⟩ "2024-01-01T00:00:00"
      ≠ format_analysis_results ⟨none, none, none, none⟩ "2024-01-02T00:00:00" := by
  decide

/-- Claim C6: a submission whose `resume_text` or `job_description` is
present but empty is rejected with a 400 and no external side effect is
attempted. -/
theorem c6_empty_text_rejected (body : SubmitAnalysis.SubmitBody)
    (env : SubmitAnalysis.SubmitEnv) (aid rt jd : String)
    (h1 : body.analysis_id = some aid) (h2 : body.resume_text = some rt)
    (h3 : body.job_description = some jd) (hemp : rt = "" ∨ jd = "") :
    (SubmitAnalysis.lambda_handler body env).1.statusCode = 400
    ∧ (SubmitAnalysis.lambda_handler body env).2 = [] := by
  simp only [SubmitAnalysis.lambda_handler, h1, h2, h3]
  rw [if_pos hemp]
  exact ⟨rfl, rfl⟩

/-- Witness for claim C6: empty resume text on an otherwise complete body. -/
theorem c6_witness :
    (SubmitAnalysis.lambda_handler ⟨some "id-1", some "", some "a job"⟩ okSubmitEnv).1.statusCode = 400
    ∧ (SubmitAnalysis.lambda_handler ⟨some "id-1", some "", some "a job"⟩ okSubmitEnv).2 = [] :=
  c6_empty_text_rejected _ _ "id-1" "" "a job" rfl rfl rfl (Or.inl rfl)

/-- Counterexample to claim C7 as stated: a body missing `resume_text`
yields status 500, not the claimed 400 (the `KeyError` lands in the
blanket `except`). -/
theorem c7_counterexample_missing_field_500 :
    (SubmitAnalysis.lambda_handler ⟨some "id-1", none, some "a job"⟩ okSubmitEnv).1.statusCode = 500
    ∧ (SubmitAnalysis.lambda_handler ⟨some "id-1", none, some "a job"⟩ okSubmitEnv).1.statusCode ≠ 400 := by
  exact ⟨rfl, by decide⟩

/-- Amended claim C7: a POST body missing any of the three required
fields returns status 500 with no side effects; 400 is reserved for
present-but-empty text fields. -/
theorem c7_amended_missing_field_aborts (body : SubmitAnalysis.SubmitBody)
    (env : SubmitAnalysis.SubmitEnv)
    (h : body.analysis_id = none ∨ body.resume_text = none ∨ body.job_description = none) :
    (SubmitAnalysis.lambda_handler body env).1.statusCode = 500
    ∧ (SubmitAnalysis.lambda_handler body env).2 = [] := by
  obtain ⟨a, r, j⟩ := body
  cases a <;> cases r <;> cases j <;> simp_all [SubmitAnalysis.lambda_handler]

/-- Witness for the amended claim C7 at a body missing `analysis_id`. -/
theorem c7_amended_witness :
    (SubmitAnalysis.lambda_handler ⟨none, some "r", some "j"⟩ okSubmitEnv).1.statusCode = 500
    ∧ (SubmitAnalysis.lambda_handler ⟨none, some "r", some "j"⟩ okSubmitEnv).2 = [] :=
  c7_amended_missing_field_aborts _ _ (Or.inl rfl)

/-- The scan of the empty analysis text yields no missing skills. -/
theorem extract_missing_skills_empty_text : extract_missing_skills "" = [] := by decide

/-- The scan of the empty analysis text falls back to the generic
recommendation list. -/
theorem extract_recommendations_empty_text :
    extract_recommendations "" = defaultRecommendations := by decide

/-- With no analysis text, score 0 and no mock flag the confidence is
70 - 10 (score below 40) - 15 (text shorter than 100) = 45. -/
theorem confidence_of_defaults (r : AnalysisResultRec) (h : r.analysis = none) :
    calculate_confidence_score r 0 false = 45 := by
  simp only [calculate_confidence_score, h]
  decide

/-- Claim C10: when the stored `analysis_result` is missing its score,
text and mock-flag fields, the formatter succeeds with defaults 0 / empty
text / not-mock: no missing skills, exactly the 5 generic
recommendations, confidence 45, and the stored timestamp (or the current
time when that too is absent). -/
theorem c10_formatter_defaults (r : AnalysisResultRec) (now : String)
    (h1 : r.match_score = none) (h2 : r.analysis = none) (h3 : r.is_mock = none) :
    format_analysis_results r now
      = ⟨0, [], defaultRecommendations, 45, r.timestamp.getD now⟩ := by
  simp only [format_analysis_results, h1, h2, h3, Option.getD_none,
    extract_missing_skills_empty_text, extract_recommendations_empty_text,
    confidence_of_defaults r h2]

/-- Witness for claim C10 at the fully empty stored record. -/
theorem c10_witness :
    format_analysis_results ⟨none, none, none, none⟩ "NOW"
      = ⟨0, [], defaultRecommendations, 45, "NOW"⟩ :=
  c10_formatter_defaults ⟨none, none, none, none⟩ "NOW" rfl rfl rfl

/-- The status-to-response mapping exactly as claim C3 words it: no
record means 404; SUBMITTED and PROCESSING report processing, FAILED
reports the stored error and timestamp, COMPLETED reports a freshly
formatted result, anything else reports unknown. -/
def retrievalSpec (item : Option GetAnalysis.ItemRec) (now : String) :
    GetAnalysis.GetResponse :=
  match item with
  | none => ⟨404, .err "Analysis not found"⟩
  | some it =>
    let s := it.status.getD "unknown"
    if s = "SUBMITTED" ∨ s = "PROCESSING" then
      ⟨200, .processing (if s = "SUBMITTED" then "Analysis is queued for processing"
        else "Analysis is currently being processed")⟩
    else if s = "FAILED" then
      ⟨200, .failed (it.error_message.getD "Analysis failed")
        (match it.completion_timestamp with
         | some t => some t
         | none => it.timestamp)⟩
    else if s = "COMPLETED" then
      ⟨200, .completed (format_analysis_results
        (it.analysis_result.getD GetAnalysis.emptyResult) now)⟩
    else ⟨200, .unknownStatus ("Unknown status: " ++ s)⟩

/-- Claim C3: for every retrieval request carrying an `analysis_id`, the
handler answers 404 when no record exists and otherwise maps the record
status to the response exactly as the specification describes. -/
theorem c3_retrieval_status_mapping (aid now : String)
    (item : Option GetAnalysis.ItemRec) (h : aid ≠ "") :
    GetAnalysis.handle_get_results (some aid) item now = retrievalSpec item now := by
  cases item with
  | none => simp [GetAnalysis.handle_get_results, retrievalSpec, h]
  | some it =>
    simp only [GetAnalysis.handle_get_results, retrievalSpec]
    rw [if_neg h]
    split_ifs <;> simp_all

/-- Witness for claim C3 at a concrete id and FAILED record. -/
theorem c3_retrieval_witness :
    GetAnalysis.handle_get_results (some "abc")
        (some ⟨some "FAILED", some "boom", none, some "t0", none⟩) "T"
      = retrievalSpec (some ⟨some "FAILED", some "boom", none, some "t0", none⟩) "T" :=
  c3_retrieval_status_mapping "abc" "T" _ (by decide)

/-- A processing environment in which the initial PROCESSING update
fails while everything else would succeed. -/
def procEnvUpdFail : ProcessAnalysis.ProcEnv :=
  ⟨"id-1", Except.error "update failed", Except.ok "resume text", Except.ok "job text",
    "PLACEHOLDER_AGENT_ID", "TSTALIASID", Except.ok "", Except.ok (), Except.ok (), "T"⟩

/-- Counterexample to claim C8 as stated: when the initial PROCESSING
update fails, the handler does not continue — it returns 500 after a
best-effort FAILED update, and the documents are never read. -/
theorem c8_counterexample_update_failure_aborts :
    (ProcessAnalysis.lambda_handler procEnvUpdFail).1.statusCode = 500
    ∧ (ProcessAnalysis.lambda_handler procEnvUpdFail).2
        = [ProcessAnalysis.PEffect.updProcessing,
           ProcessAnalysis.PEffect.updFailed "update failed"]
    ∧ ProcessAnalysis.PEffect.readResume ∉ (ProcessAnalysis.lambda_handler procEnvUpdFail).2 := by
  exact ⟨rfl, rfl, by decide⟩

/-- Amended claim C8: the initial transition to PROCESSING is not
best-effort — if that update fails, the handler aborts through the
generic error path: it attempts one FAILED update, returns 500, and
neither reads nor analyses the documents. -/
theorem c8_amended_update_failure_aborts (env : ProcessAnalysis.ProcEnv) (e : String)
    (h : env.updProcessingRes = .error e) :
    (ProcessAnalysis.lambda_handler env).1.statusCode = 500
    ∧ (ProcessAnalysis.lambda_handler env).2
        = [ProcessAnalysis.PEffect.updProcessing, ProcessAnalysis.PEffect.updFailed e]
    ∧ ProcessAnalysis.PEffect.readResume ∉ (ProcessAnalysis.lambda_handler env).2 := by
  simp [ProcessAnalysis.lambda_handler, h, ProcessAnalysis.outerExcept]

/-- Witness for the amended claim C8 at a concrete environment. -/
theorem c8_amended_witness :
    (ProcessAnalysis.lambda_handler procEnvUpdFail).1.statusCode = 500
    ∧ (ProcessAnalysis.lambda_handler procEnvUpdFail).2
        = [ProcessAnalysis.PEffect.updProcessing,
           ProcessAnalysis.PEffect.updFailed "update failed"]
    ∧ ProcessAnalysis.PEffect.readResume ∉ (ProcessAnalysis.lambda_handler procEnvUpdFail).2 :=
  c8_amended_update_failure_aborts procEnvUpdFail "update failed" rfl

/-- Counterexample to claim C4 as stated: on the text `Missing: .` the
trigger clause consists of separator characters only, the capture strips
to the empty string, and the extracted missing-skills list is exactly
`[""]` — it contains an empty string. -/
theorem c4_counterexample_empty_skill :
    extract_missing_skills "Missing: ." = [""]
    ∧ "" ∈ extract_missing_skills "Missing: ." := by
  exact ⟨by decide, by decide⟩

/-- Amended claim C4: both extracted lists have at most 5 entries, and
the recommendations list never contains an empty string (every kept
capture is longer than 10 characters and the generic defaults are
non-empty); the missing-skills list, however, can contain an empty
string. -/
theorem c4_amended_caps_and_nonempty_recs (analysis_text : String) :
    (extract_missing_skills analysis_text).length ≤ 5
    ∧ (extract_recommendations analysis_text).length ≤ 5
    ∧ ∀ r ∈ extract_recommendations analysis_text, r ≠ "" := by
  refine ⟨?_, ?_, ?_⟩
  · unfold extract_missing_skills
    rw [List.length_take]
    exact min_le_left _ _
  · unfold extract_recommendations
    dsimp only
    rw [List.length_take]
    exact min_le_left _ _
  · intro r hr
    unfold extract_recommendations at hr
    dsimp only at hr
    replace hr := List.mem_of_mem_take hr
    split at hr
    · simp only [defaultRecommendations, List.mem_cons, List.not_mem_nil, or_false] at hr
      rcases hr with rfl | rfl | rfl | rfl | rfl <;> decide
    · rw [List.mem_flatten] at hr
      obtain ⟨l, hl, hrl⟩ := hr
      rw [List.mem_map] at hl
      obtain ⟨p, _, rfl⟩ := hl
      rw [List.mem_filter] at hrl
      have hlen : 10 < r.length := by
        have := hrl.2
        simpa using this
      intro hre
      subst hre
      simp at hlen

/-- A processing environment in which the inference engine is configured
and its output text reads `score: 150`, everything else succeeding. -/
def procEnvAgent150 : ProcessAnalysis.ProcEnv :=
  ⟨"id-1", Except.ok (), Except.ok "resume text", Except.ok "job text",
    "AGENT1", "ALIAS1", Except.ok "score: 150", Except.ok (), Except.ok (), "T"⟩

/-- Counterexample to claim C9 as stated: on the inference path the score
extracted from the returned analysis text is stored unclamped, so the
COMPLETED record for agent output `score: 150` carries match_score 150,
outside 0..100. -/
theorem c9_counterexample_unclamped_agent_score :
    ProcessAnalysis.PEffect.updCompleted ⟨some 150, some "score: 150", some "T", none⟩
      ∈ (ProcessAnalysis.lambda_handler procEnvAgent150).2
    ∧ ¬ ((150 : Int) ≤ 100) := by
  exact ⟨by decide, by decide⟩

/-- Amended claim C9: on the local fallback path every stored COMPLETED
`analysis_result` has a match_score in 0..100; on the inference path the
stored score is whatever integer the text scan extracts and is not
clamped. -/
theorem c9_amended_fallback_score_in_range (env : ProcessAnalysis.ProcEnv)
    (r : AnalysisResultRec)
    (hcfg : env.agentId = "PLACEHOLDER_AGENT_ID" ∨ env.aliasId = "TSTALIASID")
    (hmem : ProcessAnalysis.PEffect.updCompleted r
      ∈ (ProcessAnalysis.lambda_handler env).2) :
    ∃ s : Int, r.match_score = some s ∧ 0 ≤ s ∧ s ≤ 100 := by
  obtain ⟨aid, up, rr, rj, agid, alid, ar, uc, uf, now⟩ := env
  dsimp only at hcfg
  have hc : ¬(agid ≠ "PLACEHOLDER_AGENT_ID" ∧ alid ≠ "TSTALIASID") := by
    rcases hcfg with h | h <;> simp [h]
  rcases up with e | u
  · simp [ProcessAnalysis.lambda_handler, ProcessAnalysis.outerExcept] at hmem
  · rcases rr with e | resume_text
    · rcases uf with e2 | u2 <;>
        simp [ProcessAnalysis.lambda_handler, ProcessAnalysis.failUpdateThenReturn,
          ProcessAnalysis.outerExcept] at hmem
    · rcases rj with e | job_description
      · rcases uf with e2 | u2 <;>
          simp [ProcessAnalysis.lambda_handler, ProcessAnalysis.failUpdateThenReturn,
            ProcessAnalysis.outerExcept] at hmem
      · simp only [ProcessAnalysis.lambda_handler] at hmem
        rw [if_neg hc] at hmem
        have hres : r = generate_mock_analysis resume_text job_description now := by
          rcases uc with e | u3 <;>
            simp [ProcessAnalysis.completeFlow, ProcessAnalysis.outerExcept] at hmem <;>
            exact hmem
        subst hres
        refine ⟨min 100 (5 * ((commonWords resume_text job_description).length : Int)),
          rfl, ?_, min_le_left _ _⟩
        have h5 : (0 : Int) ≤ 5 * ((commonWords resume_text job_description).length : Int) := by
          positivity
        exact le_min (by norm_num) h5

/-- A processing environment with no configured inference engine, so the
local fallback runs. -/
def procEnvMock : ProcessAnalysis.ProcEnv :=
  ⟨"id-1", Except.ok (), Except.ok "python developer", Except.ok "python required",
    "PLACEHOLDER_AGENT_ID", "TSTALIASID", Except.ok "", Except.ok (), Except.ok (), "T"⟩

set_option maxRecDepth 8192 in
/-- Witness for the amended claim C9 at a concrete fallback run. -/
theorem c9_amended_witness :
    ∃ s : Int,
      (generate_mock_analysis "python developer" "python required" "T").match_score = some s
      ∧ 0 ≤ s ∧ s ≤ 100 :=
  c9_amended_fallback_score_in_range procEnvMock _ (Or.inl rfl) (by decide)

/-- Witness for the amended claim C4: a concrete recommendation returned
for the empty text (a generic default) is non-empty. -/
theorem c4_amended_witness :
    ("Include relevant keywords from the job description" : String) ≠ "" :=
  (c4_amended_caps_and_nonempty_recs "").2.2
    "Include relevant keywords from the job description" (by decide)
